import Mathlib

/-!
A shallow embedding of the `MPT` custom pyfunc model from
`docs/source/llms/custom-pyfunc-for-llms/notebooks/custom-pyfunc-advanced-llm.ipynb`.

The notebook defines a class `MPT(mlflow.pyfunc.PythonModel)` with three methods:

* `load_context(self, context)` — loads a tokenizer, a config and a causal-LM
  model from the artifact directory `context.artifacts["snapshot"]`, moves the
  model to the cpu device and puts it in eval mode;
* `_build_prompt(self, instruction)` — fixed f-string interpolation producing
  the instruction-tuned prompt around the user text;
* `predict(self, context, model_input, params=None)` — reads
  `model_input["prompt"][0]`, resolves `temperature` / `max_tokens` from
  `params` with defaults `0.1` / `1000` (note: `x if params else d`, so an
  empty dict behaves like `None`), builds the prompt, encodes it, calls
  `self.model.generate(encoded_input, do_sample=True, temperature=...,
  max_new_tokens=...)` once, decodes the full output, re-encodes the prompt to
  obtain its token length, decodes `output[0][prompt_length:]` and returns
  `{"candidates": [generated_response]}`.

The external HuggingFace / torch surface (tokenizer, model, loaders) is kept
abstract: a `Tokenizer` is a pair of fallible functions, an `LM` is a fallible
sampling function whose randomness is made explicit as a seed argument, and the
loaders are fields of an `HFLib` record that read the artifact directory.
All external calls made by `predict` are recorded in an explicit trace so that
call-order and call-count properties can be stated.  Machine floats carry no
arithmetic here (they are only stored and passed through), so Python numeric
literals are embedded as exact rationals / integers in `PVal`.
-/

/-- Python-level runtime errors that can surface from the embedded code.
`keyError` / `indexError` arise from the `model_input["prompt"][0]` lookups
(the concrete Python exception class depends on the container pandas/dict
type; only the fact of failure matters here), `attributeError` models access
to `self.tokenizer` / `self.model` when `load_context` never assigned them,
and `libraryError` is an opaque error raised inside an external
transformers/torch call. -/
inductive PyErr where
  | keyError : String → PyErr
  | indexError : Nat → PyErr
  | attributeError : String → PyErr
  | libraryError : String → PyErr
deriving DecidableEq, Repr

/-- A Python numeric value stored in the `params` dict: `temperature` is a
float literal (embedded as an exact rational, since the adapter never computes
with it) and `max_tokens` is an int. -/
inductive PVal where
  | pfloat : ℚ → PVal
  | pint : Int → PVal
deriving DecidableEq, Repr

instance {ε α : Type} [DecidableEq ε] [DecidableEq α] : DecidableEq (Except ε α) := fun a b =>
  match a, b with
  | .ok x, .ok y =>
    if h : x = y then .isTrue (by rw [h]) else .isFalse (by intro hc; cases hc; exact h rfl)
  | .error x, .error y =>
    if h : x = y then .isTrue (by rw [h]) else .isFalse (by intro hc; cases hc; exact h rfl)
  | .ok _, .error _ => .isFalse (by intro hc; cases hc)
  | .error _, .ok _ => .isFalse (by intro hc; cases hc)

/-- Python dict lookup `d[k]`: the first binding for `k`, else a `KeyError`. -/
def dictLookup {α : Type} (d : List (String × α)) (k : String) : Except PyErr α :=
  match d.find? (fun p => p.1 == k) with
  | some p => .ok p.2
  | none => .error (.keyError k)

/-- Python sequence indexing `l[i]`: the `i`-th element, else an error. -/
def listIndex {α : Type} (l : List α) (i : Nat) : Except PyErr α :=
  match l.get? i with
  | some v => .ok v
  | none => .error (.indexError i)

/-- Python `d.get(k, dflt)` on a dict of numeric values. -/
def dictGet (d : List (String × PVal)) (k : String) (dflt : PVal) : PVal :=
  match d.find? (fun p => p.1 == k) with
  | some p => p.2
  | none => dflt

/-- The Python expression `params.get(k, dflt) if params else dflt`.
Python truthiness makes both `None` and the empty dict take the `else`
branch. -/
def resolveParam (params : Option (List (String × PVal))) (k : String) (dflt : PVal) : PVal :=
  match params with
  | some d => if d.isEmpty then dflt else dictGet d k dflt
  | none => dflt

/-- The contents of an artifact directory (the model snapshot): a mapping from
file name to file bytes.  It is only ever read by the external loaders. -/
abbrev Artifacts := List (String × List Nat)

/-- An in-memory tokenizer as returned by `AutoTokenizer.from_pretrained`.
`encode s` embeds `tokenizer.encode(s, return_tensors="pt")` (the single row
of the returned tensor) and `decode toks skip` embeds
`tokenizer.decode(toks, skip_special_tokens=skip)`.  Both may raise. -/
structure Tokenizer where
  encode : String → Except PyErr (List Nat)
  decode : List Nat → Bool → Except PyErr String

/-- An in-memory causal-LM as returned by
`AutoModelForCausalLM.from_pretrained`.  `generate input_ids do_sample
temperature max_new_tokens seed` embeds the single batch row `output[0]` of
`model.generate(...)`; the sampler randomness consumed when `do_sample=True`
is made explicit as the `seed` argument (the ambient RNG state at call
time). -/
structure LM where
  generate : List Nat → Bool → PVal → PVal → Nat → Except PyErr (List Nat)

/-- The result of `AutoConfig.from_pretrained`, opaque to the adapter: it is
only passed on to the model loader. -/
abbrev HFConfig := List (String × String)

/-- The external loading surface used by `load_context`.  Each loader reads
the artifact directory and may fail (missing or incompatible files).
`model_to_cpu` and `model_eval` embed the in-place reconfigurations
`model.to(device="cpu")` and `model.eval()`, which cannot fail for an
already-constructed model on the cpu device. -/
structure HFLib where
  autoTokenizer_from_pretrained : Artifacts → Except PyErr Tokenizer
  autoConfig_from_pretrained : Artifacts → Except PyErr HFConfig
  autoModelForCausalLM_from_pretrained : Artifacts → HFConfig → Except PyErr LM
  model_to_cpu : LM → LM
  model_eval : LM → LM

/-- The attribute state of an `MPT` instance: a fresh instance has neither
`self.tokenizer` nor `self.model`; `load_context` assigns them in order. -/
structure AdapterState where
  tokenizer : Option Tokenizer
  model : Option LM

/-- A fresh `MPT()` instance, before `load_context` has run. -/
def AdapterState.fresh : AdapterState := ⟨none, none⟩

/-- An external call made by `predict`, recorded in order of occurrence.
`generateCall` records input ids, `do_sample`, `temperature` and
`max_new_tokens` as passed at the call site. -/
inductive ExtCall where
  | encodeCall : String → ExtCall
  | generateCall : List Nat → Bool → PVal → PVal → ExtCall
  | decodeCall : List Nat → Bool → ExtCall
deriving DecidableEq, Repr

/-- Outcome of one `load_context` call: the raised-or-ok result, the attribute
state of `self` afterwards (assignments made before a raise persist), and the
artifact mapping afterwards (threaded through explicitly so that the frame
property over the bundle is statable). -/
structure LoadRun where
  result : Except PyErr Unit
  state : AdapterState
  context : List (String × Artifacts)

/-- Outcome of one `predict` call: the returned-or-raised result, the trace of
external tokenizer/model calls, and the artifact mapping afterwards. -/
structure PredictRun where
  result : Except PyErr (List (String × List String))
  trace : List ExtCall
  context : List (String × Artifacts)
deriving DecidableEq, Repr

namespace MPT

/-- `MPT._build_prompt`: the f-string

```
return f"""\x7bINTRO_BLURB\x7d
        \x7bINSTRUCTION_KEY\x7d
        \x7binstruction\x7d
        \x7bRESPONSE_KEY\x7d
        """
```

with `INSTRUCTION_KEY = "### Instruction:"`, `RESPONSE_KEY = "### Response:"`
and the intro blurb, keeping the literal newline-plus-8-spaces separators of
the triple-quoted source. -/
def build_prompt (instruction : String) : String :=
  "Below is an instruction that describes a task. Write a response that appropriately completes the request."
  ++ "\n        " ++ "### Instruction:"
  ++ "\n        " ++ instruction
  ++ "\n        " ++ "### Response:"
  ++ "\n        "

/-- `MPT.load_context(self, context)`.  The source evaluates
`context.artifacts["snapshot"]` once per loader call on the immutable
`context`; it is bound once here.  Assignments to `self.tokenizer` and
`self.model` happen exactly where the source performs them, so the state in
which an exception leaves the instance is preserved. -/
def load_context (lib : HFLib) (context : List (String × Artifacts))
    (st : AdapterState) : LoadRun :=
  match dictLookup context "snapshot" with
  | .error e => ⟨.error e, st, context⟩
  | .ok snapshot =>
    match lib.autoTokenizer_from_pretrained snapshot with
    | .error e => ⟨.error e, st, context⟩
    | .ok tok =>
      let st1 : AdapterState := { st with tokenizer := some tok }
      match lib.autoConfig_from_pretrained snapshot with
      | .error e => ⟨.error e, st1, context⟩
      | .ok config =>
        match lib.autoModelForCausalLM_from_pretrained snapshot config with
        | .error e => ⟨.error e, st1, context⟩
        | .ok mdl =>
          ⟨.ok (), { st1 with model := some (lib.model_eval (lib.model_to_cpu mdl)) }, context⟩

/-- The body of `MPT.predict` after the extraction
`prompt = model_input["prompt"][0]` has produced `instruction`, step for step:
parameter resolution, prompt construction, encoding, the single `generate`
call, the (unused) full decode, the re-encode of the prompt for its token
length, and the decode of `output[0][prompt_length:]`.  `seed` is the ambient
sampler RNG state consumed by `generate`. -/
def predictFrom (st : AdapterState) (context : List (String × Artifacts))
    (instruction : String)
    (params : Option (List (String × PVal))) (seed : Nat) : PredictRun :=
      let temperature := resolveParam params "temperature" (.pfloat (1/10))
      let max_tokens := resolveParam params "max_tokens" (.pint 1000)
      let prompt := build_prompt instruction
      match st.tokenizer with
      | none => ⟨.error (.attributeError "tokenizer"), [], context⟩
      | some tokenizer =>
        match tokenizer.encode prompt with
        | .error e => ⟨.error e, [.encodeCall prompt], context⟩
        | .ok encoded_input =>
          match st.model with
          | none =>
            ⟨.error (.attributeError "model"), [.encodeCall prompt], context⟩
          | some model =>
            match model.generate encoded_input true temperature max_tokens seed with
            | .error e =>
              ⟨.error e,
                [.encodeCall prompt,
                 .generateCall encoded_input true temperature max_tokens], context⟩
            | .ok output0 =>
              match tokenizer.decode output0 true with
              | .error e =>
                ⟨.error e,
                  [.encodeCall prompt,
                   .generateCall encoded_input true temperature max_tokens,
                   .decodeCall output0 true], context⟩
              | .ok _generated_text =>
                match tokenizer.encode prompt with
                | .error e =>
                  ⟨.error e,
                    [.encodeCall prompt,
                     .generateCall encoded_input true temperature max_tokens,
                     .decodeCall output0 true,
                     .encodeCall prompt], context⟩
                | .ok promptToks =>
                  let prompt_length := promptToks.length
                  match tokenizer.decode (output0.drop prompt_length) true with
                  | .error e =>
                    ⟨.error e,
                      [.encodeCall prompt,
                       .generateCall encoded_input true temperature max_tokens,
                       .decodeCall output0 true,
                       .encodeCall prompt,
                       .decodeCall (output0.drop prompt_length) true], context⟩
                  | .ok generated_response =>
                    ⟨.ok [("candidates", [generated_response])],
                      [.encodeCall prompt,
                       .generateCall encoded_input true temperature max_tokens,
                       .decodeCall output0 true,
                       .encodeCall prompt,
                       .decodeCall (output0.drop prompt_length) true], context⟩

/-- `MPT.predict(self, context, model_input, params=None)`: the extraction
`prompt = model_input["prompt"][0]` (a dict/column lookup followed by indexing
at 0) and then the rest of the body, `predictFrom`. -/
def predict (st : AdapterState) (context : List (String × Artifacts))
    (model_input : List (String × List String))
    (params : Option (List (String × PVal))) (seed : Nat) : PredictRun :=
  match dictLookup model_input "prompt" with
  | .error e => ⟨.error e, [], context⟩
  | .ok promptCol =>
    match listIndex promptCol 0 with
    | .error e => ⟨.error e, [], context⟩
    | .ok instruction => predictFrom st context instruction params seed

end MPT

/-- Substring containment on strings, as a decidable scan: true iff `pat`
occurs contiguously in `s`. -/
def strContains (s pat : String) : Bool :=
  (List.range (s.length + 1)).any (fun i => ((s.drop i).take pat.length) == pat)

/-- Whether `k` is a key of the (possibly absent) params dict. -/
def hasKey (params : Option (List (String × PVal))) (k : String) : Bool :=
  match params with
  | none => false
  | some d => d.any (fun p => p.1 == k)

/-- Whether `k` is a key of a string-keyed dict. -/
def hasKeyD {α : Type} (d : List (String × α)) (k : String) : Bool :=
  d.any (fun p => p.1 == k)

/-- A trivial tokenizer instance for concrete runs: every string encodes to
`[]` and every token list decodes to `""`. -/
def constTok : Tokenizer where
  encode := fun _ => .ok []
  decode := fun _ _ => .ok ""

/-- A trivial model instance for concrete runs: every call generates the
empty output. -/
def constLM : LM where
  generate := fun _ _ _ _ _ => .ok []

/-- A tokenizer instance whose decode depends on the tokens: a token list
decodes to as many copies of one character as the sum of its tokens. -/
def sumTok : Tokenizer where
  encode := fun _ => .ok []
  decode := fun toks _ => .ok (String.mk (List.replicate (toks.foldl (fun a b => a + b) 0) 'a'))

/-- A model instance whose output depends on the sampler randomness: it
generates the single token `[seed]`. -/
def seedLM : LM where
  generate := fun _ _ _ _ seed => .ok [seed]

/-- A character-level tokenizer instance: a string encodes to the list of its
character codes and a token list decodes back to the corresponding string. -/
def charTok : Tokenizer where
  encode := fun s => .ok (s.data.map Char.toNat)
  decode := fun toks _ => .ok (String.mk (toks.map Char.ofNat))

/-- A model instance that echoes its input ids and then continues with the
character codes of the instruction scaffold marker — a possible sampled
continuation for an instruction-tuned model. -/
def echoLM : LM where
  generate := fun input_ids _ _ _ _ =>
    .ok (input_ids ++ ("### Instruction:".data.map Char.toNat))

/-- A model instance that echoes its input ids and then continues with the
character codes of a plain answer. -/
def politeLM : LM where
  generate := fun input_ids _ _ _ _ => .ok (input_ids ++ ("42".data.map Char.toNat))

/-- A tokenizer instance that fails on every call, standing in for a broken
tokenizer raising at runtime. -/
def failTok : Tokenizer where
  encode := fun _ => .error (.libraryError "tokenizer failure")
  decode := fun _ _ => .error (.libraryError "tokenizer failure")

/-- An external loading surface whose loads all succeed, yielding the
character-level tokenizer and the scaffold-echoing model. -/
def charLib : HFLib where
  autoTokenizer_from_pretrained := fun _ => .ok charTok
  autoConfig_from_pretrained := fun _ => .ok []
  autoModelForCausalLM_from_pretrained := fun _ _ => .ok echoLM
  model_to_cpu := id
  model_eval := id

/-- An external loading surface whose loads all succeed, yielding the
character-level tokenizer and the plain-answer model. -/
def politeLib : HFLib where
  autoTokenizer_from_pretrained := fun _ => .ok charTok
  autoConfig_from_pretrained := fun _ => .ok []
  autoModelForCausalLM_from_pretrained := fun _ _ => .ok politeLM
  model_to_cpu := id
  model_eval := id

/-- An external loading surface standing in for a snapshot directory with
missing required files: the tokenizer load fails. -/
def failLib : HFLib where
  autoTokenizer_from_pretrained := fun _ => .error (.libraryError "missing required files")
  autoConfig_from_pretrained := fun _ => .error (.libraryError "missing required files")
  autoModelForCausalLM_from_pretrained := fun _ _ => .error (.libraryError "missing required files")
  model_to_cpu := id
  model_eval := id

theorem dictLookup_of_not_hasKeyD {α : Type} (d : List (String × α)) (k : String)
    (h : hasKeyD d k = false) : dictLookup d k = .error (.keyError k) := by
  unfold dictLookup
  have hf : d.find? (fun p => p.1 == k) = none := by
    rw [List.find?_eq_none]
    intro p hp
    simp only [hasKeyD, List.any_eq_false] at h
    exact h p hp
  rw [hf]

theorem dictGet_of_find?_none (d : List (String × PVal)) (k : String) (dflt : PVal)
    (h : d.find? (fun p => p.1 == k) = none) : dictGet d k dflt = dflt := by
  unfold dictGet
  rw [h]

/-- When `k` is not a key of `params`, the Python expression
`params.get(k, dflt) if params else dflt` yields the default. -/
theorem resolveParam_of_not_hasKey (params : Option (List (String × PVal)))
    (k : String) (dflt : PVal) (h : hasKey params k = false) :
    resolveParam params k dflt = dflt := by
  cases params with
  | none => rfl
  | some d =>
    simp only [hasKey] at h
    show (if d.isEmpty = true then dflt else dictGet d k dflt) = dflt
    have hf : d.find? (fun p => p.1 == k) = none := by
      rw [List.find?_eq_none]
      intro p hp
      simp only [List.any_eq_false] at h
      exact h p hp
    rw [dictGet_of_find?_none d k dflt hf]
    exact ite_self dflt

/-- `predict` is the extraction `model_input["prompt"][0]` followed by
`predictFrom`. -/
theorem MPT.predict_eq (st : AdapterState) (context : List (String × Artifacts))
    (model_input : List (String × List String))
    (params : Option (List (String × PVal))) (seed : Nat) :
    MPT.predict st context model_input params seed
      = match Except.bind (dictLookup model_input "prompt") (fun col => listIndex col 0) with
        | .error e => ⟨.error e, [], context⟩
        | .ok instruction => MPT.predictFrom st context instruction params seed := by
  unfold MPT.predict
  cases dictLookup model_input "prompt" with
  | error e => rfl
  | ok col =>
    cases listIndex col 0 with
    | error e => rfl
    | ok instruction => rfl

/-- Any `generateCall` recorded by `predictFrom` carries `do_sample = true`
and the resolved `temperature` / `max_tokens` values. -/
theorem generateCall_mem_predictFrom (st : AdapterState)
    (context : List (String × Artifacts)) (instruction : String)
    (params : Option (List (String × PVal))) (seed : Nat)
    (toks : List Nat) (ds : Bool) (temp maxtok : PVal)
    (hmem : ExtCall.generateCall toks ds temp maxtok
      ∈ (MPT.predictFrom st context instruction params seed).trace) :
    ds = true
      ∧ temp = resolveParam params "temperature" (.pfloat (1/10))
      ∧ maxtok = resolveParam params "max_tokens" (.pint 1000) := by
  simp only [MPT.predictFrom] at hmem
  repeat' split at hmem
  all_goals simp_all

/-- C6: Neither `load_context` nor `predict` mutates the artifact bundle: the
artifact mapping threaded through either operation is returned unchanged
(the adapter contains no write to the bundle). -/
theorem c6_no_bundle_mutation (lib : HFLib) (st st2 : AdapterState)
    (context context2 : List (String × Artifacts))
    (model_input : List (String × List String))
    (params : Option (List (String × PVal))) (seed : Nat) :
    (MPT.load_context lib context st).context = context
      ∧ (MPT.predict st2 context2 model_input params seed).context = context2 := by
  constructor
  · unfold MPT.load_context
    repeat' split
    all_goals rfl
  · simp only [MPT.predict, MPT.predictFrom]
    repeat' split
    all_goals rfl

/-- C8: `predict` consumes exactly one row: the outcome depends on the input
table only through `model_input["prompt"][0]`, so any two inputs whose prompt
column has the same first entry (and any additional rows or columns
otherwise) produce identical results. -/
theorem c8_first_row_only (st : AdapterState) (context : List (String × Artifacts))
    (d1 d2 : List (String × List String))
    (params : Option (List (String × PVal))) (seed : Nat)
    (h : Except.bind (dictLookup d1 "prompt") (fun col => listIndex col 0)
       = Except.bind (dictLookup d2 "prompt") (fun col => listIndex col 0)) :
    MPT.predict st context d1 params seed = MPT.predict st context d2 params seed := by
  rw [MPT.predict_eq, MPT.predict_eq, h]

/-- C8 witness: a prompt column with extra rows, and an extra column, gives
the same run as the single-row single-column input. -/
theorem c8_witness :
    MPT.predict AdapterState.fresh [] [("prompt", ["a", "b", "c"]), ("other", ["z"])] none 0
      = MPT.predict AdapterState.fresh [] [("prompt", ["a"])] none 0 :=
  c8_first_row_only AdapterState.fresh [] [("prompt", ["a", "b", "c"]), ("other", ["z"])]
    [("prompt", ["a"])] none 0 (by decide)

/-- C9: passing an empty params dict is the same as passing no params at all:
Python truthiness sends both to the default branch, so both resolve
`temperature` to 0.1 and `max_tokens` to 1000 and the two runs coincide. -/
theorem c9_empty_params_equiv (st : AdapterState) (context : List (String × Artifacts))
    (model_input : List (String × List String)) (seed : Nat) :
    MPT.predict st context model_input (some []) seed
        = MPT.predict st context model_input none seed
      ∧ resolveParam (some []) "temperature" (.pfloat (1/10)) = .pfloat (1/10)
      ∧ resolveParam (some []) "max_tokens" (.pint 1000) = .pint 1000
      ∧ resolveParam none "temperature" (.pfloat (1/10)) = .pfloat (1/10)
      ∧ resolveParam none "max_tokens" (.pint 1000) = .pint 1000 :=
  ⟨rfl, rfl, rfl, rfl, rfl⟩

/-- C2: whenever `predict` reaches the decoding procedure, a missing
`temperature` key (or absent params) makes the call use temperature 0.1, and
a missing `max_tokens` key makes it use max_tokens 1000. -/
theorem c2_default_params (st : AdapterState) (context : List (String × Artifacts))
    (model_input : List (String × List String))
    (params : Option (List (String × PVal))) (seed : Nat)
    (toks : List Nat) (ds : Bool) (temp maxtok : PVal)
    (hmem : ExtCall.generateCall toks ds temp maxtok
      ∈ (MPT.predict st context model_input params seed).trace) :
    (hasKey params "temperature" = false → temp = .pfloat (1/10))
      ∧ (hasKey params "max_tokens" = false → maxtok = .pint 1000) := by
  rw [MPT.predict_eq] at hmem
  cases hb : Except.bind (dictLookup model_input "prompt") (fun col => listIndex col 0) with
  | error e => simp only [hb] at hmem; simp at hmem
  | ok instruction =>
    simp only [hb] at hmem
    obtain ⟨hds, htemp, hmax⟩ :=
      generateCall_mem_predictFrom st context instruction params seed toks ds temp maxtok hmem
    constructor
    · intro h
      rw [htemp]
      exact resolveParam_of_not_hasKey params "temperature" _ h
    · intro h
      rw [hmax]
      exact resolveParam_of_not_hasKey params "max_tokens" _ h

/-- C2 witness: a concrete run with no params reaches `generate` with
temperature 0.1 and max_tokens 1000. -/
theorem c2_witness :
    (hasKey (none : Option (List (String × PVal))) "temperature" = false
        → PVal.pfloat (1/10) = PVal.pfloat (1/10))
      ∧ (hasKey (none : Option (List (String × PVal))) "max_tokens" = false
        → PVal.pint 1000 = PVal.pint 1000) :=
  c2_default_params ⟨some constTok, some constLM⟩ [] [("prompt", ["x"])] none 0
    [] true (.pfloat (1/10)) (.pint 1000) (by
      have h : (MPT.predict ⟨some constTok, some constLM⟩ [] [("prompt", ["x"])] none 0).trace
          = [.encodeCall (MPT.build_prompt "x"),
             .generateCall [] true (.pfloat (1/10)) (.pint 1000),
             .decodeCall [] true,
             .encodeCall (MPT.build_prompt "x"),
             .decodeCall [] true] := rfl
      rw [h]
      exact List.mem_cons_of_mem _ (List.mem_cons_self _ _))

/-- C7: with the sampler randomness made explicit, `predict` is a function of
its inputs: two sequential calls with identical input and identical seed give
identical results.  Without a fixed seed, determinism fails: there is an
adapter and an input for which two seeds give different results (sampling is
invoked with `do_sample = true`). -/
theorem c7_seed_determinism :
    (∀ (st : AdapterState) (context : List (String × Artifacts))
        (model_input : List (String × List String))
        (params : Option (List (String × PVal))) (s1 s2 : Nat),
      s1 = s2 →
        MPT.predict st context model_input params s1
          = MPT.predict st context model_input params s2)
      ∧ (∃ (st : AdapterState) (context : List (String × Artifacts))
          (model_input : List (String × List String))
          (params : Option (List (String × PVal))) (s1 s2 : Nat),
        MPT.predict st context model_input params s1
          ≠ MPT.predict st context model_input params s2) := by
  constructor
  · intro st context model_input params s1 s2 h
    rw [h]
  · refine ⟨⟨some sumTok, some seedLM⟩, [], [("prompt", ["x"])], none, 0, 1, ?_⟩
    decide

/-- C7 witness: the determinism half applied at one concrete seed. -/
theorem c7_witness :
    MPT.predict AdapterState.fresh [] [("prompt", ["x"])] none 5
      = MPT.predict AdapterState.fresh [] [("prompt", ["x"])] none 5 :=
  c7_seed_determinism.1 AdapterState.fresh [] [("prompt", ["x"])] none 5 5 rfl

/-- C10: an input table without a `prompt` column makes `predict` raise a
key error, and a `prompt` column with no rows makes it raise an index error;
both before any tokenizer or model call (empty trace) and without producing
a Prediction Result. -/
theorem c10_missing_prompt_error (st : AdapterState)
    (context : List (String × Artifacts))
    (model_input : List (String × List String))
    (params : Option (List (String × PVal))) (seed : Nat) :
    (hasKeyD model_input "prompt" = false →
      MPT.predict st context model_input params seed
        = ⟨.error (.keyError "prompt"), [], context⟩)
      ∧ (∀ col, dictLookup model_input "prompt" = .ok col → col = [] →
        MPT.predict st context model_input params seed
          = ⟨.error (.indexError 0), [], context⟩) := by
  constructor
  · intro h
    simp only [MPT.predict, dictLookup_of_not_hasKeyD model_input "prompt" h]
  · intro col hcol hnil
    subst hnil
    simp only [MPT.predict, hcol, listIndex, List.get?]

/-- C10 witness: the two failure shapes at concrete inputs. -/
theorem c10_witness :
    MPT.predict AdapterState.fresh [] [("x", ["y"])] none 0
        = ⟨.error (.keyError "prompt"), [], []⟩
      ∧ MPT.predict AdapterState.fresh [] [("prompt", [])] none 0
        = ⟨.error (.indexError 0), [], []⟩ :=
  ⟨(c10_missing_prompt_error AdapterState.fresh [] [("x", ["y"])] none 0).1 (by decide),
   (c10_missing_prompt_error AdapterState.fresh [] [("prompt", [])] none 0).2 [] (by decide) rfl⟩

/-- C4: when the prompt extraction yields `instruction` and the external
calls succeed, `predict` performs exactly, in order: prompt construction by
fixed interpolation, tokenization of that prompt, a single `generate` call
with `do_sample = true` and the supplied-or-default temperature and
max_tokens, the full decode, the re-tokenization of the prompt for its
length, the decode of the output with the prompt tokens stripped — and
returns that decoded continuation as the single candidate.  The decoding
procedure is invoked exactly once. -/
theorem c4_predict_steps (tok : Tokenizer) (mdl : LM)
    (context : List (String × Artifacts))
    (model_input : List (String × List String))
    (params : Option (List (String × PVal))) (seed : Nat)
    (instruction : String) (toks output0 : List Nat) (full resp : String)
    (hlook : Except.bind (dictLookup model_input "prompt") (fun col => listIndex col 0)
      = .ok instruction)
    (henc : tok.encode (MPT.build_prompt instruction) = .ok toks)
    (hgen : mdl.generate toks true (resolveParam params "temperature" (.pfloat (1/10)))
      (resolveParam params "max_tokens" (.pint 1000)) seed = .ok output0)
    (hdec : tok.decode output0 true = .ok full)
    (hresp : tok.decode (output0.drop toks.length) true = .ok resp) :
    MPT.predict ⟨some tok, some mdl⟩ context model_input params seed
        = ⟨.ok [("candidates", [resp])],
           [.encodeCall (MPT.build_prompt instruction),
            .generateCall toks true (resolveParam params "temperature" (.pfloat (1/10)))
              (resolveParam params "max_tokens" (.pint 1000)),
            .decodeCall output0 true,
            .encodeCall (MPT.build_prompt instruction),
            .decodeCall (output0.drop toks.length) true], context⟩
      ∧ ((MPT.predict ⟨some tok, some mdl⟩ context model_input params seed).trace.countP
          (fun c => match c with | .generateCall _ _ _ _ => true | _ => false)) = 1 := by
  have hmain : MPT.predict ⟨some tok, some mdl⟩ context model_input params seed
      = ⟨.ok [("candidates", [resp])],
         [.encodeCall (MPT.build_prompt instruction),
          .generateCall toks true (resolveParam params "temperature" (.pfloat (1/10)))
            (resolveParam params "max_tokens" (.pint 1000)),
          .decodeCall output0 true,
          .encodeCall (MPT.build_prompt instruction),
          .decodeCall (output0.drop toks.length) true], context⟩ := by
    rw [MPT.predict_eq]
    simp only [hlook, MPT.predictFrom, henc, hgen, hdec, hresp]
  refine ⟨hmain, ?_⟩
  rw [hmain]
  rfl

/-- C4 witness: a concrete successful run, showing the full call trace. -/
theorem c4_witness :
    MPT.predict ⟨some constTok, some constLM⟩ [] [("prompt", ["hi"])] none 0
        = ⟨.ok [("candidates", [""])],
           [.encodeCall (MPT.build_prompt "hi"),
            .generateCall [] true (.pfloat (1/10)) (.pint 1000),
            .decodeCall [] true,
            .encodeCall (MPT.build_prompt "hi"),
            .decodeCall [] true], []⟩
      ∧ ((MPT.predict ⟨some constTok, some constLM⟩ [] [("prompt", ["hi"])] none 0).trace.countP
          (fun c => match c with | .generateCall _ _ _ _ => true | _ => false)) = 1 :=
  c4_predict_steps constTok constLM [] [("prompt", ["hi"])] none 0 "hi" [] [] "" ""
    rfl rfl rfl rfl rfl

/-- C5: a runtime error in any of the tokenizer/model calls made by `predict`
is returned to the caller unchanged: the run stops at the failing call (it is
made once, nothing is retried after it) and no result is produced in its
place.  One conjunct per failure site: the prompt encode, the `generate`
call, the full decode, and the stripped decode.  (The re-encode of the prompt
cannot fail once the first encode of the same string succeeded, the tokenizer
being a function of its input.) -/
theorem c5_error_propagation (tok : Tokenizer) (mdl : LM)
    (context : List (String × Artifacts))
    (model_input : List (String × List String))
    (params : Option (List (String × PVal))) (seed : Nat) (instruction : String)
    (hlook : Except.bind (dictLookup model_input "prompt") (fun col => listIndex col 0)
      = .ok instruction) :
    (∀ e, tok.encode (MPT.build_prompt instruction) = .error e →
      MPT.predict ⟨some tok, some mdl⟩ context model_input params seed
        = ⟨.error e, [.encodeCall (MPT.build_prompt instruction)], context⟩)
    ∧ (∀ e toks, tok.encode (MPT.build_prompt instruction) = .ok toks →
        mdl.generate toks true (resolveParam params "temperature" (.pfloat (1/10)))
          (resolveParam params "max_tokens" (.pint 1000)) seed = .error e →
      MPT.predict ⟨some tok, some mdl⟩ context model_input params seed
        = ⟨.error e,
           [.encodeCall (MPT.build_prompt instruction),
            .generateCall toks true (resolveParam params "temperature" (.pfloat (1/10)))
              (resolveParam params "max_tokens" (.pint 1000))], context⟩)
    ∧ (∀ e toks output0, tok.encode (MPT.build_prompt instruction) = .ok toks →
        mdl.generate toks true (resolveParam params "temperature" (.pfloat (1/10)))
          (resolveParam params "max_tokens" (.pint 1000)) seed = .ok output0 →
        tok.decode output0 true = .error e →
      MPT.predict ⟨some tok, some mdl⟩ context model_input params seed
        = ⟨.error e,
           [.encodeCall (MPT.build_prompt instruction),
            .generateCall toks true (resolveParam params "temperature" (.pfloat (1/10)))
              (resolveParam params "max_tokens" (.pint 1000)),
            .decodeCall output0 true], context⟩)
    ∧ (∀ e toks output0 full, tok.encode (MPT.build_prompt instruction) = .ok toks →
        mdl.generate toks true (resolveParam params "temperature" (.pfloat (1/10)))
          (resolveParam params "max_tokens" (.pint 1000)) seed = .ok output0 →
        tok.decode output0 true = .ok full →
        tok.decode (output0.drop toks.length) true = .error e →
      MPT.predict ⟨some tok, some mdl⟩ context model_input params seed
        = ⟨.error e,
           [.encodeCall (MPT.build_prompt instruction),
            .generateCall toks true (resolveParam params "temperature" (.pfloat (1/10)))
              (resolveParam params "max_tokens" (.pint 1000)),
            .decodeCall output0 true,
            .encodeCall (MPT.build_prompt instruction),
            .decodeCall (output0.drop toks.length) true], context⟩) := by
  refine ⟨?_, ?_, ?_, ?_⟩
  · intro e henc
    rw [MPT.predict_eq]
    simp only [hlook, MPT.predictFrom, henc]
  · intro e toks henc hgen
    rw [MPT.predict_eq]
    simp only [hlook, MPT.predictFrom, henc, hgen]
  · intro e toks output0 henc hgen hdec
    rw [MPT.predict_eq]
    simp only [hlook, MPT.predictFrom, henc, hgen, hdec]
  · intro e toks output0 full henc hgen hdec hresp
    rw [MPT.predict_eq]
    simp only [hlook, MPT.predictFrom, henc, hgen, hdec, hresp]

/-- C5 witness: a run against a tokenizer that raises surfaces the raised
error unchanged, with nothing after the failing call. -/
theorem c5_witness :
    MPT.predict ⟨some failTok, some constLM⟩ [] [("prompt", ["x"])] none 0
      = ⟨.error (.libraryError "tokenizer failure"),
         [.encodeCall (MPT.build_prompt "x")], []⟩ :=
  (c5_error_propagation failTok constLM [] [("prompt", ["x"])] none 0 "x" rfl).1
    (.libraryError "tokenizer failure") rfl

/-- A failing `load_context` started from a fresh instance never assigns
`self.model`: the assignment is the last fallible step. -/
theorem load_context_error_model_none (lib : HFLib)
    (context : List (String × Artifacts)) (e : PyErr)
    (h : (MPT.load_context lib context AdapterState.fresh).result = .error e) :
    (MPT.load_context lib context AdapterState.fresh).state.model = none := by
  simp only [MPT.load_context] at h ⊢
  repeat' split
  all_goals simp_all [AdapterState.fresh]

/-- An adapter whose `self.model` was never assigned cannot complete a
`predict` call: every run raises. -/
theorem model_none_predict_error (st : AdapterState) (h : st.model = none)
    (context : List (String × Artifacts))
    (model_input : List (String × List String))
    (params : Option (List (String × PVal))) (seed : Nat) :
    ∃ e, (MPT.predict st context model_input params seed).result = .error e := by
  rw [MPT.predict_eq]
  cases hb : Except.bind (dictLookup model_input "prompt") (fun col => listIndex col 0) with
  | error e => exact ⟨e, rfl⟩
  | ok instruction =>
    show ∃ e, (MPT.predictFrom st context instruction params seed).result = .error e
    simp only [MPT.predictFrom, h]
    cases htok : st.tokenizer with
    | none => simp [htok]
    | some tok =>
      simp only [htok]
      cases henc : tok.encode (MPT.build_prompt instruction) with
      | error e => simp [henc]
      | ok toks => simp [henc]

/-- C3: when `load_context` on a fresh instance fails (missing or
incompatible artifact files), the error is surfaced to the caller, and the
instance it leaves behind cannot serve `Generate`: every subsequent `predict`
on that state raises instead of returning a Prediction Result. -/
theorem c3_load_failure_unusable (lib : HFLib)
    (context : List (String × Artifacts)) (e : PyErr)
    (hload : (MPT.load_context lib context AdapterState.fresh).result = .error e)
    (context2 : List (String × Artifacts))
    (model_input : List (String × List String))
    (params : Option (List (String × PVal))) (seed : Nat) :
    ∃ e2, (MPT.predict (MPT.load_context lib context AdapterState.fresh).state
        context2 model_input params seed).result = .error e2 :=
  model_none_predict_error _ (load_context_error_model_none lib context e hload)
    context2 model_input params seed

/-- C3 witness: a concrete failing load leaves an instance on which a
concrete `predict` call raises. -/
theorem c3_witness :
    ∃ e2, (MPT.predict (MPT.load_context failLib [("snapshot", [])] AdapterState.fresh).state
        [] [("prompt", ["x"])] none 0).result = .error e2 :=
  c3_load_failure_unusable failLib [("snapshot", [])] (.libraryError "missing required files")
    rfl [] [("prompt", ["x"])] none 0

set_option maxRecDepth 40000

/-- C1 counterexample: a successfully initialized adapter (a valid bundle in
the model, loading a character-level tokenizer and a model whose sampled
continuation echoes the instruction scaffold marker) on which
`Generate(\x7bprompt: "What is machine learning?"\x7d)` returns a candidate that
does contain the literal substring of the instruction key: only the prompt
token-prefix is stripped, not occurrences generated inside the
continuation. -/
theorem c1_counterexample :
    (MPT.load_context charLib [("snapshot", [])] AdapterState.fresh).result = .ok ()
      ∧ (MPT.predict (MPT.load_context charLib [("snapshot", [])] AdapterState.fresh).state
          [("snapshot", [])] [("prompt", ["What is machine learning?"])] none 0).result
        = .ok [("candidates", ["### Instruction:"])]
      ∧ strContains "### Instruction:" "### Instruction:" = true := by
  refine ⟨rfl, ?_, by decide⟩
  rfl

/-- C1 (amended): Initialize followed by Generate with a non-empty prompt,
with all external calls succeeding, returns a Prediction Result with a
non-empty candidates sequence whose single candidate is the decoded model
output with the constructed prompt token-prefix removed.  (The candidate can
still contain scaffold text if the model continuation itself produces it:
only the prompt prefix is stripped.) -/
theorem c1_candidates_stripped (lib : HFLib) (tok : Tokenizer) (mdl : LM)
    (context : List (String × Artifacts))
    (model_input : List (String × List String))
    (params : Option (List (String × PVal))) (seed : Nat)
    (instruction : String) (toks output0 : List Nat) (full resp : String)
    (hload : MPT.load_context lib context AdapterState.fresh
      = ⟨.ok (), ⟨some tok, some mdl⟩, context⟩)
    (hne : instruction ≠ "")
    (hlook : Except.bind (dictLookup model_input "prompt") (fun col => listIndex col 0)
      = .ok instruction)
    (henc : tok.encode (MPT.build_prompt instruction) = .ok toks)
    (hgen : mdl.generate toks true (resolveParam params "temperature" (.pfloat (1/10)))
      (resolveParam params "max_tokens" (.pint 1000)) seed = .ok output0)
    (hdec : tok.decode output0 true = .ok full)
    (hresp : tok.decode (output0.drop toks.length) true = .ok resp) :
    (MPT.predict ⟨some tok, some mdl⟩ context model_input params seed).result
        = .ok [("candidates", [resp])]
      ∧ [resp] ≠ ([] : List String) := by
  constructor
  · rw [MPT.predict_eq]
    simp only [hlook, MPT.predictFrom, henc, hgen, hdec, hresp]
  · simp

/-- C1 witness: a concrete Initialize-then-Generate run on the prompt from
the spec, returning the single candidate produced by the model continuation
with the prompt prefix stripped. -/
theorem c1_witness :
    (MPT.predict ⟨some charTok, some politeLM⟩ [("snapshot", [])]
        [("prompt", ["What is machine learning?"])] none 0).result
      = .ok [("candidates", ["42"])]
      ∧ ["42"] ≠ ([] : List String) :=
  c1_candidates_stripped politeLib charTok politeLM [("snapshot", [])]
    [("prompt", ["What is machine learning?"])] none 0 "What is machine learning?"
    _ _ _ _ rfl (by decide) rfl rfl rfl rfl rfl
